import Mathlib

/-!
Verification of the provider-adapter / orchestrator core of the
llms-experiments repository against its specification.

The Python sources are shallowly embedded:

* `ProviderResponse` mirrors the dataclass of
  `src/experiment/providers/base.py` (exactly its ten fields).
* Each provider's `generate` is embedded as a pure function of a stream
  environment: the environment supplies the list of stream events the
  vendor SDK would yield (each with the `time.perf_counter()` reading
  taken when the adapter processes it), the `perf_counter()` readings at
  the start and end of the call, and whether the stream raises an
  exception after a given prefix of events.  Python exceptions are the
  `PyExc` structure; a function that can propagate an exception returns
  `Except PyExc _`, a function whose body catches every exception is
  total.
* `time.perf_counter()` is monotone; theorems that need this take it as
  a hypothesis on the event timestamps of the environment.
* Python truthiness tests on strings/floats/objects are translated
  explicitly (empty string and the float zero are falsy, `None` is
  falsy, any present object is truthy).
* Request construction (messages / content parts) is embedded by the
  `build_content` / `build_parts` functions; it does not influence the
  streamed response, which is determined by the environment, so the
  `generate` embeddings take only the prompts and the environment.
  File reading (`Path.read_bytes`) is supplied as the byte list of the
  image file; the `json_schema` and configuration-override arguments
  only shape the vendor request dictionary and are omitted from the
  response-side embedding.
-/

/-- Python truthiness of an optional string (`None` and `""` are falsy). -/
def pyTruthyStr : Option String → Bool
  | some s => s ≠ ""
  | none => false

/-- Python `"".join(parts)`: concatenation in list order. -/
def pyJoin : List String → String
  | [] => ""
  | s :: rest => s ++ pyJoin rest

/-- Python `str.strip()` (whitespace at both ends removed), written by
structural recursion over the character list. -/
def pyStrip (s : String) : String :=
  String.mk (((s.toList.dropWhile Char.isWhitespace).reverse.dropWhile
    Char.isWhitespace).reverse)

/-- Python `len(s)` (number of code points). -/
def pyLen (s : String) : Nat := s.length

/-- Python `len(s) if s else None` (used for the char-count fallbacks). -/
def pyLenIfTruthy : Option String → Option Nat
  | some s => if s = "" then none else some (pyLen s)
  | none => none

/-- The base64 alphabet in index order. -/
def b64chars : List Char :=
  "ABCDEFGHIJKLMNOPQRSTUVWXYZabcdefghijklmnopqrstuvwxyz0123456789+/".toList

/-- The base64 digit for a 6-bit value. -/
def b64char (n : Nat) : Char := b64chars.getD n '='

/-- `base64.b64encode(bytes).decode("utf-8")`: standard base64 with
padding, over the byte values of the file. -/
def base64Encode : List Nat → String
  | [] => ""
  | [a] =>
    String.mk [b64char (a / 4), b64char (a % 4 * 16)] ++ "=="
  | [a, b] =>
    String.mk [b64char (a / 4), b64char (a % 4 * 16 + b / 16),
               b64char (b % 16 * 4)] ++ "="
  | a :: b :: c :: rest =>
    String.mk [b64char (a / 4), b64char (a % 4 * 16 + b / 16),
               b64char (b % 16 * 4 + c / 64), b64char (c % 64)]
      ++ base64Encode rest

/-- Index of the last occurrence of a character in a list (`str.rfind`). -/
def lastIndexOf : List Char → Char → Option Nat
  | [], _ => none
  | a :: rest, c =>
    match lastIndexOf rest c with
    | some i => some (i + 1)
    | none => if a = c then some 0 else none

/-- `pathlib.Path(p).name`: the final path component. -/
def pyPathName (p : String) : String :=
  ((p.splitOn "/").filter (fun s => s ≠ "")).getLastD ""

/-- `pathlib.Path(p).suffix`: the extension of the final component
(CPython: `name[i:]` when `0 < i < len(name) - 1` for the last dot
index `i`, else `""`). -/
def pySuffix (p : String) : String :=
  let name := pyPathName p
  match lastIndexOf name.toList '.' with
  | some i =>
    if 0 < i ∧ i + 1 < name.length then String.mk (name.toList.drop i) else ""
  | none => ""

/-- The extension→MIME dictionary (with `image/png` as the `.get`
default) shared verbatim by the Anthropic, Grok and Gemini adapters. -/
def mimeForExt (ext : String) : String :=
  if ext = ".png" then "image/png"
  else if ext = ".jpg" then "image/jpeg"
  else if ext = ".jpeg" then "image/jpeg"
  else if ext = ".webp" then "image/webp"
  else "image/png"

/-- `AnthropicProvider._encode_image_data_url` (anthropic_provider.py
lines 30-40): base64 of the raw bytes, tagged via the lowercased
suffix, rendered as a data URL. -/
def AnthropicProvider.encode_image_data_url
    (image_path : String) (file_bytes : List Nat) : String :=
  let data := base64Encode file_bytes
  let ext := (pySuffix image_path).toLower
  let mime := mimeForExt ext
  "data:" ++ mime ++ ";base64," ++ data

/-- `GrokProvider._encode_image_data_url` (grok_provider.py lines
26-36): textually identical to the Anthropic helper. -/
def GrokProvider.encode_image_data_url
    (image_path : String) (file_bytes : List Nat) : String :=
  let data := base64Encode file_bytes
  let ext := (pySuffix image_path).toLower
  let mime := mimeForExt ext
  "data:" ++ mime ++ ";base64," ++ data

/-- `OpenAIProvider._encode_image` (openai_provider.py lines 20-23):
the bare base64 of the raw bytes, with no MIME information. -/
def OpenAIProvider.encode_image
    (image_path : String) (file_bytes : List Nat) : String :=
  base64Encode file_bytes

/-- The dictionary returned by `GeminiProvider._encode_image`
(gemini_provider.py lines 22-31): a MIME tag plus the raw, un-encoded
bytes. -/
structure GeminiImageDict where
  mime_type : String
  data : List Nat
deriving DecidableEq

/-- `GeminiProvider._encode_image` (gemini_provider.py lines 22-31). -/
def GeminiProvider.encode_image
    (image_path : String) (file_bytes : List Nat) : GeminiImageDict :=
  { mime_type := mimeForExt ((pySuffix image_path).toLower),
    data := file_bytes }

/-- A raised Python exception as the adapters observe it: its class
name (`type(e).__name__`), its string rendering (`str(e)`), and
`e.response.status_code` when that attribute chain exists. -/
structure PyExc where
  className : String
  message : String := ""
  responseStatusCode : Option Int := none
deriving DecidableEq

/-- The single-entry `{"model": ...}` dictionary stored in
`response_params` by the Anthropic and Grok adapters. -/
structure RespParams where
  model : String
deriving DecidableEq

/-- The `ProviderResponse` dataclass of
`src/experiment/providers/base.py` (lines 7-18): exactly these ten
fields, `response_params` with default `None` — and, notably, no
`error_message` field. -/
structure ProviderResponse where
  text : Option String
  input_tokens : Option Nat
  output_tokens : Option Nat
  input_chars : Option Nat
  output_chars : Option Nat
  ttft_ms : Option ℚ
  total_latency_ms : Option ℚ
  http_status : Option Int
  error_category : Option String
  response_params : Option RespParams := none
deriving DecidableEq

/-- The keyword parameters accepted by the generated
`ProviderResponse.__init__` (the dataclass fields, in order). -/
def ProviderResponse.init_params : List String :=
  ["text", "input_tokens", "output_tokens", "input_chars", "output_chars",
   "ttft_ms", "total_latency_ms", "http_status", "error_category",
   "response_params"]

/-- Keyword arguments of a call that the callee does not accept.  A
Python call raises `TypeError` on the first such argument. -/
def unexpectedKwargs (given accepted : List String) : List String :=
  given.filter (fun k => !(accepted.contains k))

/-- One run of a vendor stream, as the adapter's `for` loop observes
it: either the loop exhausts the listed events, or the listed prefix is
yielded and then an exception is raised (at stream creation when the
prefix is empty, or mid-iteration). -/
inductive StreamRun (ev : Type) where
  | ok (events : List ev)
  | fail (events : List ev) (e : PyExc)
deriving DecidableEq

/-- The events the adapter loop actually processed. -/
def StreamRun.consumed {ev : Type} : StreamRun ev → List ev
  | .ok events => events
  | .fail events _ => events

/-- The exception raised by the stream, if any. -/
def StreamRun.exc {ev : Type} : StreamRun ev → Option PyExc
  | .ok _ => none
  | .fail _ e => some e

/-- `chunk.usage` of an OpenAI-compatible streaming chunk:
`prompt_tokens` / `completion_tokens`, each possibly absent (the
adapters read them with `getattr(..., None)`). -/
structure Usage where
  prompt_tokens : Option Nat := none
  completion_tokens : Option Nat := none
deriving DecidableEq

/-- `choices[0].delta` of a streaming chunk: an optional `content`
string. -/
structure Delta where
  content : Option String := none
deriving DecidableEq

/-- One element of `chunk.choices`. -/
structure Choice where
  delta : Option Delta := none
deriving DecidableEq

/-- A chunk of the OpenAI-compatible stream consumed by the Anthropic
and Grok adapters, together with the `time.perf_counter()` reading `t`
taken if the adapter records the first token while processing it. -/
structure ChatChunk where
  t : ℚ
  model : Option String := none
  usage : Option Usage := none
  choices : List Choice := []
deriving DecidableEq

/-- Stream environment of one Anthropic/Grok `generate` call:
`startT`/`endT` are the `perf_counter()` readings taken at lines
`start = time.perf_counter()` and `end = time.perf_counter()`. -/
structure ChatEnv where
  run : StreamRun ChatChunk
  startT : ℚ
  endT : ℚ
deriving DecidableEq

/-- Mutable loop state of the Anthropic/Grok streaming loop. -/
structure ChatAccum where
  first_token_time : Option ℚ := none
  accum_text_parts : List String := []
  input_tokens : Option Nat := none
  output_tokens : Option Nat := none
  response_params : Option RespParams := none
deriving DecidableEq

/-- Lines 84-86 of anthropic_provider.py (and 83-85 of
grok_provider.py): capture `{"model": chunk.model}` once, on the first
chunk with a truthy `model` attribute. -/
def chatStepModel (acc : ChatAccum) (c : ChatChunk) : ChatAccum :=
  if pyTruthyStr c.model then
    if acc.response_params = none then
      { acc with response_params := some ⟨c.model.getD ""⟩ }
    else acc
  else acc

/-- Lines 88-92 (usage capture): when `chunk.usage` is truthy and both
token counters are still `None`, assign both from this chunk. -/
def chatStepUsage (acc : ChatAccum) (c : ChatChunk) : ChatAccum :=
  match c.usage with
  | some u =>
    if acc.input_tokens = none ∧ acc.output_tokens = none then
      { acc with input_tokens := u.prompt_tokens,
                 output_tokens := u.completion_tokens }
    else acc
  | none => acc

/-- Lines 94-103 (delta text): when `choices` is non-empty, its first
element has a `delta`, and `delta.content` is truthy, record the first
token time once and append the piece. -/
def chatStepText (acc : ChatAccum) (c : ChatChunk) : ChatAccum :=
  match c.choices with
  | [] => acc
  | c0 :: _ =>
    match c0.delta with
    | none => acc
    | some d =>
      match d.content with
      | none => acc
      | some piece =>
        if piece ≠ "" then
          if acc.first_token_time = none then
            { acc with first_token_time := some c.t,
                       accum_text_parts := acc.accum_text_parts ++ [piece] }
          else
            { acc with accum_text_parts := acc.accum_text_parts ++ [piece] }
        else acc

/-- One iteration of the `async for chunk in stream` body. -/
def chatStep (acc : ChatAccum) (c : ChatChunk) : ChatAccum :=
  chatStepText (chatStepUsage (chatStepModel acc c) c) c

/-- The whole loop over the consumed chunks. -/
def chatConsume : ChatAccum → List ChatChunk → ChatAccum
  | acc, [] => acc
  | acc, c :: rest => chatConsume (chatStep acc c) rest

/-- `total_latency_ms = (end - start) * 1000`. -/
def latencyMs (startT endT : ℚ) : ℚ := (endT - startT) * 1000

/-- `ttft_ms = (first_token_time - start) * 1000 if first_token_time
else None` — note the Python truthiness test: the float `0.0` is falsy,
so a first-token reading of exactly `0.0` also yields `None`. -/
def ttftMs (startT : ℚ) : Option ℚ → Option ℚ
  | some t => if t = 0 then none else some ((t - startT) * 1000)
  | none => none

/-- Every local computed at the `return ProviderResponse(...)` site of
the Anthropic and Grok adapters (lines 123-135 resp. 122-134),
including the `error_message` keyword that the dataclass does not
accept. -/
structure ChatComputed where
  text : Option String
  input_tokens : Option Nat
  output_tokens : Option Nat
  input_chars : Option Nat
  output_chars : Option Nat
  ttft_ms : Option ℚ
  total_latency_ms : ℚ
  http_status : Option Int
  error_category : Option String
  error_message : Option String
  response_params : Option RespParams
deriving DecidableEq

/-- The body of `AnthropicProvider.generate` (anthropic_provider.py
lines 71-121) up to — but not including — the `ProviderResponse(...)`
constructor call: stream consumption, error capture, timing and the
char-count fallbacks. -/
def AnthropicProvider.generate_fields
    (system_prompt user_prompt : String) (env : ChatEnv) : ChatComputed :=
  let acc := chatConsume {} env.run.consumed
  let failed := env.run.exc
  let http_status : Option Int :=
    match failed with
    | none => some 200
    | some e => e.responseStatusCode
  let error_category : Option String :=
    match failed with
    | none => none
    | some e => some e.className
  let error_message : Option String :=
    match failed with
    | none => none
    | some e => some e.message
  let text : Option String :=
    match failed with
    | none => some (pyStrip (pyJoin acc.accum_text_parts))
    | some _ => none
  { text := text,
    input_tokens := acc.input_tokens,
    output_tokens := acc.output_tokens,
    input_chars := pyLenIfTruthy (some user_prompt),
    output_chars := pyLenIfTruthy text,
    ttft_ms := ttftMs env.startT acc.first_token_time,
    total_latency_ms := latencyMs env.startT env.endT,
    http_status := http_status,
    error_category := error_category,
    error_message := error_message,
    response_params := acc.response_params }

/-- The keyword arguments of the `return ProviderResponse(...)` call in
`AnthropicProvider.generate` (lines 123-135). -/
def AnthropicProvider.return_kwargs : List String :=
  ["text", "input_tokens", "output_tokens", "input_chars", "output_chars",
   "ttft_ms", "total_latency_ms", "http_status", "error_category",
   "error_message", "response_params"]

/-- `AnthropicProvider.generate` (anthropic_provider.py lines 42-135),
including the final constructor call: the dataclass rejects the
`error_message` keyword, so the call raises `TypeError`. -/
def AnthropicProvider.generate
    (system_prompt user_prompt : String) (env : ChatEnv) :
    Except PyExc ProviderResponse :=
  let c := AnthropicProvider.generate_fields system_prompt user_prompt env
  match unexpectedKwargs AnthropicProvider.return_kwargs
      ProviderResponse.init_params with
  | [] =>
    Except.ok
      { text := c.text, input_tokens := c.input_tokens,
        output_tokens := c.output_tokens, input_chars := c.input_chars,
        output_chars := c.output_chars, ttft_ms := c.ttft_ms,
        total_latency_ms := some c.total_latency_ms,
        http_status := c.http_status, error_category := c.error_category,
        response_params := c.response_params }
  | k :: _ =>
    Except.error
      ⟨"TypeError",
       "ProviderResponse.__init__() got an unexpected keyword argument "
         ++ k, none⟩

/-- Body of `GrokProvider.generate` (grok_provider.py lines 70-120) up
to the constructor call; the streaming loop is textually identical to
the Anthropic one. -/
def GrokProvider.generate_fields
    (system_prompt user_prompt : String) (env : ChatEnv) : ChatComputed :=
  let acc := chatConsume {} env.run.consumed
  let failed := env.run.exc
  let http_status : Option Int :=
    match failed with
    | none => some 200
    | some e => e.responseStatusCode
  let error_category : Option String :=
    match failed with
    | none => none
    | some e => some e.className
  let error_message : Option String :=
    match failed with
    | none => none
    | some e => some e.message
  let text : Option String :=
    match failed with
    | none => some (pyStrip (pyJoin acc.accum_text_parts))
    | some _ => none
  { text := text,
    input_tokens := acc.input_tokens,
    output_tokens := acc.output_tokens,
    input_chars := pyLenIfTruthy (some user_prompt),
    output_chars := pyLenIfTruthy text,
    ttft_ms := ttftMs env.startT acc.first_token_time,
    total_latency_ms := latencyMs env.startT env.endT,
    http_status := http_status,
    error_category := error_category,
    error_message := error_message,
    response_params := acc.response_params }

/-- The keyword arguments of the `return ProviderResponse(...)` call in
`GrokProvider.generate` (lines 122-134). -/
def GrokProvider.return_kwargs : List String :=
  ["text", "input_tokens", "output_tokens", "input_chars", "output_chars",
   "ttft_ms", "total_latency_ms", "http_status", "error_category",
   "error_message", "response_params"]

/-- `GrokProvider.generate` (grok_provider.py lines 38-134), including
the final constructor call, which raises `TypeError` for the
unexpected `error_message` keyword. -/
def GrokProvider.generate
    (system_prompt user_prompt : String) (env : ChatEnv) :
    Except PyExc ProviderResponse :=
  let c := GrokProvider.generate_fields system_prompt user_prompt env
  match unexpectedKwargs GrokProvider.return_kwargs
      ProviderResponse.init_params with
  | [] =>
    Except.ok
      { text := c.text, input_tokens := c.input_tokens,
        output_tokens := c.output_tokens, input_chars := c.input_chars,
        output_chars := c.output_chars, ttft_ms := c.ttft_ms,
        total_latency_ms := some c.total_latency_ms,
        http_status := c.http_status, error_category := c.error_category,
        response_params := c.response_params }
  | k :: _ =>
    Except.error
      ⟨"TypeError",
       "ProviderResponse.__init__() got an unexpected keyword argument "
         ++ k, none⟩

/-- One event of the OpenAI streaming helper (`event.type`,
`event.delta`), with the `perf_counter()` reading `t` taken if the
adapter timestamps it. -/
structure OAIEvent where
  t : ℚ
  etype : String
  delta : String := ""
deriving DecidableEq

/-- Stream environment of one `OpenAIProvider.generate` call. -/
structure OAIEnv where
  run : StreamRun OAIEvent
  startT : ℚ
  endT : ℚ
deriving DecidableEq

/-- Mutable loop state of the OpenAI event loop. -/
structure OAIAccum where
  first_token_time : Option ℚ := none
  accum_text_parts : List String := []
  error_category : Option String := none
deriving DecidableEq

/-- The `for event in stream` loop of `OpenAIProvider.generate`
(openai_provider.py lines 57-69), with its two `break` statements
(`response.error` and `response.completed`). -/
def oaiLoop : OAIAccum → List OAIEvent → OAIAccum
  | acc, [] => acc
  | acc, ev :: rest =>
    if ev.etype = "response.refuse.delta" then oaiLoop acc rest
    else if ev.etype = "response.error" then
      { acc with error_category := some "api_error" }
    else if ev.etype = "response.output_text.delta" then
      let acc1 :=
        if acc.first_token_time = none then
          { acc with first_token_time := some ev.t }
        else acc
      oaiLoop
        { acc1 with accum_text_parts := acc1.accum_text_parts ++ [ev.delta] }
        rest
    else if ev.etype = "response.completed" then acc
    else oaiLoop acc rest

/-- `OpenAIProvider.generate` (openai_provider.py lines 25-98).  The
`except` clause catches every exception raised by the stream, so the
embedding is a total function. -/
def OpenAIProvider.generate
    (system_prompt user_prompt : String) (env : OAIEnv) : ProviderResponse :=
  match env.run with
  | StreamRun.ok events =>
    let acc := oaiLoop {} events
    let text := some (pyStrip (pyJoin acc.accum_text_parts))
    { text := text,
      input_tokens := none,
      output_tokens := none,
      input_chars := pyLenIfTruthy (some user_prompt),
      output_chars := pyLenIfTruthy text,
      ttft_ms := ttftMs env.startT acc.first_token_time,
      total_latency_ms := some (latencyMs env.startT env.endT),
      http_status := some 200,
      error_category := acc.error_category }
  | StreamRun.fail events e =>
    let acc := oaiLoop {} events
    { text := none,
      input_tokens := none,
      output_tokens := none,
      input_chars := pyLenIfTruthy (some user_prompt),
      output_chars := pyLenIfTruthy none,
      ttft_ms := ttftMs env.startT acc.first_token_time,
      total_latency_ms := some (latencyMs env.startT env.endT),
      http_status := none,
      error_category := some e.className }

/-- One chunk of the Gemini stream (`chunk.text`), with the timestamp
taken when it is processed. -/
structure GemChunk where
  t : ℚ
  text : Option String := none
deriving DecidableEq

/-- Stream environment of one `GeminiProvider.generate` call. -/
structure GemEnv where
  run : StreamRun GemChunk
  startT : ℚ
  endT : ℚ
deriving DecidableEq

/-- Mutable loop state of the Gemini chunk loop. -/
structure GemAccum where
  first_token_time : Option ℚ := none
  accum : List String := []
deriving DecidableEq

/-- The `for chunk in response` loop of `GeminiProvider.generate`
(gemini_provider.py lines 58-62): only truthy `chunk.text` is
accumulated and timestamped. -/
def gemLoop : GemAccum → List GemChunk → GemAccum
  | acc, [] => acc
  | acc, c :: rest =>
    match c.text with
    | some s =>
      if s ≠ "" then
        let acc1 :=
          if acc.first_token_time = none then
            { acc with first_token_time := some c.t }
          else acc
        gemLoop { acc1 with accum := acc1.accum ++ [s] } rest
      else gemLoop acc rest
    | none => gemLoop acc rest

/-- `GeminiProvider.generate` (gemini_provider.py lines 33-85).  On the
exception path `text` keeps its initial `None` and `http_status` stays
`None`; token counts are hard-coded `None` on both paths. -/
def GeminiProvider.generate
    (system_prompt user_prompt : String) (env : GemEnv) : ProviderResponse :=
  match env.run with
  | StreamRun.ok chunks =>
    let acc := gemLoop {} chunks
    let text := some (pyStrip (pyJoin acc.accum))
    { text := text,
      input_tokens := none,
      output_tokens := none,
      input_chars := pyLenIfTruthy (some user_prompt),
      output_chars := pyLenIfTruthy text,
      ttft_ms := ttftMs env.startT acc.first_token_time,
      total_latency_ms := some (latencyMs env.startT env.endT),
      http_status := some 200,
      error_category := none }
  | StreamRun.fail chunks e =>
    let acc := gemLoop {} chunks
    { text := none,
      input_tokens := none,
      output_tokens := none,
      input_chars := pyLenIfTruthy (some user_prompt),
      output_chars := pyLenIfTruthy none,
      ttft_ms := ttftMs env.startT acc.first_token_time,
      total_latency_ms := some (latencyMs env.startT env.endT),
      http_status := none,
      error_category := some e.className }

/-- A part of the user-turn `content` list built by the OpenAI adapter
(openai_provider.py lines 30-38): a text block, or an
`input_image` block holding only the base64 data — no MIME field
exists in the dictionary the source builds. -/
inductive OAIContentPart where
  | text (text : String)
  | input_image (data : String)
deriving DecidableEq

/-- The user-turn `content` list of `OpenAIProvider.generate`
(lines 30-39). -/
def OpenAIProvider.build_content
    (user_prompt : String) (image_path : Option String)
    (file_bytes : List Nat) : List OAIContentPart :=
  let content := [OAIContentPart.text user_prompt]
  match image_path with
  | some p =>
    if p ≠ "" then
      content ++ [OAIContentPart.input_image (OpenAIProvider.encode_image p file_bytes)]
    else content
  | none => content

/-- A part of the user-turn `content` list built by the Anthropic and
Grok adapters: a text block or an `image_url` block holding a data
URL. -/
inductive ChatContentPart where
  | text (text : String)
  | image_url (url : String)
deriving DecidableEq

/-- The user-turn `content` list of `AnthropicProvider.generate`
(anthropic_provider.py lines 53-57). -/
def AnthropicProvider.build_content
    (user_prompt : String) (image_path : Option String)
    (file_bytes : List Nat) : List ChatContentPart :=
  let content := [ChatContentPart.text user_prompt]
  match image_path with
  | some p =>
    if p ≠ "" then
      content ++ [ChatContentPart.image_url (AnthropicProvider.encode_image_data_url p file_bytes)]
    else content
  | none => content

/-- The user-turn `content` list of `GrokProvider.generate`
(grok_provider.py lines 49-53). -/
def GrokProvider.build_content
    (user_prompt : String) (image_path : Option String)
    (file_bytes : List Nat) : List ChatContentPart :=
  let content := [ChatContentPart.text user_prompt]
  match image_path with
  | some p =>
    if p ≠ "" then
      content ++ [ChatContentPart.image_url (GrokProvider.encode_image_data_url p file_bytes)]
    else content
  | none => content

/-- One element of the `parts` list built by the Gemini adapter: a
prompt string or the image dictionary. -/
inductive GemPart where
  | text (s : String)
  | image (d : GeminiImageDict)
deriving DecidableEq

/-- The `parts` list of `GeminiProvider.generate` (gemini_provider.py
lines 34-40): system prompt, image, user prompt, each included only
when truthy. -/
def GeminiProvider.build_parts
    (system_prompt user_prompt : String) (image_path : Option String)
    (file_bytes : List Nat) : List GemPart :=
  (if system_prompt ≠ "" then [GemPart.text system_prompt] else [])
    ++ (match image_path with
        | some p =>
          if p ≠ "" then [GemPart.image (GeminiProvider.encode_image p file_bytes)]
          else []
        | none => [])
    ++ (if user_prompt ≠ "" then [GemPart.text user_prompt] else [])

/-- The static model roster `MODEL_SPECS` of runner.py lines 18-30 (the
Gemini line is commented out in the source). -/
def MODEL_SPECS : List (String × String) :=
  [("openai", "gpt-4.1"),
   ("openai", "gpt-4o"),
   ("openai", "o1"),
   ("openai", "gpt-5"),
   ("openai", "gpt-5-chat-latest"),
   ("anthropic", "claude-opus-4-1-20250805"),
   ("anthropic", "claude-opus-4-20250514"),
   ("anthropic", "claude-3-7-sonnet-latest"),
   ("anthropic", "claude-sonnet-4-20250514"),
   ("grok", "grok-4-fast-reasoning")]

/-- The per-model row dictionary built in `run_task` (runner.py lines
87-100). -/
structure Row where
  StudyInstanceUID : String
  slice_number : String
  response_text : Option String
  input_tokens : Option Nat
  output_tokens : Option Nat
  input_chars : Option Nat
  output_chars : Option Nat
  ttft_ms : Option ℚ
  total_latency_ms : Option ℚ
  http_status : Option Int
  error_category : Option String
  response_params : Option String
deriving DecidableEq

/-- `json.dumps(response.response_params)` for the only shape the
adapters produce (`\x7b"model": m\x7d`). -/
def jsonDumpsRespParams (p : RespParams) : String :=
  "\x7b\"model\": \"" ++ p.model ++ "\"\x7d"

/-- Building one row from a `ProviderResponse` (runner.py lines
87-100); `response_params` is serialized only when truthy. -/
def mkRow (study_uid slice_number : String) (r : ProviderResponse) : Row :=
  { StudyInstanceUID := study_uid,
    slice_number := slice_number,
    response_text := r.text,
    input_tokens := r.input_tokens,
    output_tokens := r.output_tokens,
    input_chars := r.input_chars,
    output_chars := r.output_chars,
    ttft_ms := r.ttft_ms,
    total_latency_ms := r.total_latency_ms,
    http_status := r.http_status,
    error_category := r.error_category,
    response_params :=
      match r.response_params with
      | some p => some (jsonDumpsRespParams p)
      | none => none }

/-- What `provider.generate(...)` evaluates to at the call site in
`run_task`: a `ProviderResponse` for the synchronous adapters, or an
un-awaited coroutine object for the `async def` adapters (Anthropic
and Grok), which `run_task` invokes without `await`. -/
inductive CallValue where
  | resp (r : ProviderResponse)
  | coroutine
deriving DecidableEq

/-- The stream environments available to one adapter call (only the
one matching the dispatched provider is consulted). -/
structure CallEnv where
  chat : ChatEnv
  oai : OAIEnv
  gem : GemEnv
deriving DecidableEq

/-- `create_provider` dispatch (runner.py lines 33-44) followed by the
`provider.generate(...)` call of line 80: unknown providers raise
`ValueError`; the async adapters return a coroutine object (their body
does not run). -/
def provider_generate_call
    (provider_name model_name : String) (system_prompt user_prompt : String)
    (env : CallEnv) : Except PyExc CallValue :=
  if provider_name = "openai" then
    Except.ok (CallValue.resp (OpenAIProvider.generate system_prompt user_prompt env.oai))
  else if provider_name = "anthropic" then
    Except.ok CallValue.coroutine
  else if provider_name = "grok" then
    Except.ok CallValue.coroutine
  else if provider_name = "gemini" then
    Except.ok (CallValue.resp (GeminiProvider.generate system_prompt user_prompt env.gem))
  else Except.error ⟨"ValueError", "Unknown provider: " ++ provider_name, none⟩

/-- `model_rows.setdefault(model_name, []).append(row)` over an
insertion-ordered association list (Python dict semantics). -/
def appendRow (m : List (String × List Row)) (k : String) (row : Row) :
    List (String × List Row) :=
  if m.any (fun p => p.1 = k) then
    m.map (fun p => if p.1 = k then (p.1, p.2 ++ [row]) else p)
  else m ++ [(k, [row])]

/-- The `for provider_name, model_name in MODEL_SPECS` loop of
`run_task` (runner.py lines 78-102).  `run_task` wraps no `try` around
the adapter call or the row construction, so any exception aborts the
whole task; accessing `.text` on a coroutine raises
`AttributeError`. -/
def run_task_loop (system_text prompt_text study_uid slice_number : String)
    (envs : Nat → CallEnv) :
    Nat → List (String × String) → List (String × List Row) →
    Except PyExc (List (String × List Row))
  | _, [], acc => Except.ok acc
  | i, (provider_name, model_name) :: rest, acc =>
    match provider_generate_call provider_name model_name
        system_text prompt_text (envs i) with
    | Except.error e => Except.error e
    | Except.ok (CallValue.resp r) =>
      run_task_loop system_text prompt_text study_uid slice_number envs
        (i + 1) rest (appendRow acc model_name (mkRow study_uid slice_number r))
    | Except.ok CallValue.coroutine =>
      Except.error
        ⟨"AttributeError", "coroutine object has no attribute text", none⟩

/-- `run_task` (runner.py lines 63-104): one task fanned out over the
static roster; `envs i` is the network behaviour of the `i`-th adapter
call. -/
def run_task (prompt_text system_text image_path study_uid slice_number : String)
    (envs : Nat → CallEnv) : Except PyExc (List (String × List Row)) :=
  run_task_loop system_text prompt_text study_uid slice_number envs
    0 MODEL_SPECS []

/-- Total number of rows over all models of a `run_task` result. -/
def totalRows (m : List (String × List Row)) : Nat :=
  (m.map (fun p => p.2.length)).sum

/-- Spec-side classifier (spec §4.2 `TextDelta`): the non-empty text
fragment carried by an OpenAI-compatible chunk, if any. -/
def chatFragment (c : ChatChunk) : Option String :=
  match c.choices with
  | [] => none
  | c0 :: _ =>
    match c0.delta with
    | none => none
    | some d =>
      match d.content with
      | none => none
      | some p => if p ≠ "" then some p else none

/-- Spec-side notion of the received non-empty fragments of an
Anthropic/Grok stream, in arrival order (spec §4.4: \"Concatenate all
text fragments in arrival order\"). -/
def spec_received_fragments_chat (l : List ChatChunk) : List String :=
  l.filterMap chatFragment

/-- Spec-side notion of the received non-empty fragments of an OpenAI
stream: fragments up to the terminal (`response.error` /
`response.completed`) event. -/
def spec_received_fragments_oai : List OAIEvent → List String
  | [] => []
  | ev :: rest =>
    if ev.etype = "response.error" ∨ ev.etype = "response.completed" then []
    else if ev.etype = "response.output_text.delta" ∧ ev.delta ≠ "" then
      ev.delta :: spec_received_fragments_oai rest
    else spec_received_fragments_oai rest

/-- Spec-side notion of the received non-empty fragments of a Gemini
stream. -/
def spec_received_fragments_gem (l : List GemChunk) : List String :=
  l.filterMap (fun c =>
    match c.text with
    | some s => if s ≠ "" then some s else none
    | none => none)

/-- A chunk that reports at least one usage counter (spec §4.2
`UsageReported`). -/
def bearsUsage (c : ChatChunk) : Bool :=
  match c.usage with
  | some u => u.prompt_tokens.isSome || u.completion_tokens.isSome
  | none => false

/-- The usage object of a chunk (defaulting to an empty one). -/
def usageOf (c : ChatChunk) : Usage := c.usage.getD {}

/-- The byte values of a string (for comparing a wire payload of raw
bytes against a base64 text payload). -/
def strBytes (s : String) : List Nat := s.toList.map Char.toNat

/-- The effect of one `response.output_text.delta` event on the OpenAI
loop state (record the first-token time once, append the delta). -/
def oaiDeltaStep (acc : OAIAccum) (ev : OAIEvent) : OAIAccum :=
  if acc.first_token_time = none then
    { acc with first_token_time := some ev.t,
               accum_text_parts := acc.accum_text_parts ++ [ev.delta] }
  else
    { acc with accum_text_parts := acc.accum_text_parts ++ [ev.delta] }


/-- The effect of one truthy `chunk.text` on the Gemini loop state. -/
def gemDeltaStep (acc : GemAccum) (c : GemChunk) (s : String) : GemAccum :=
  if acc.first_token_time = none then
    { acc with first_token_time := some c.t, accum := acc.accum ++ [s] }
  else
    { acc with accum := acc.accum ++ [s] }


/-- Timestamps the adapter can observe during the loop lie between the
`start` and `end` `perf_counter()` readings (monotonicity of the
clock). -/
def chatTimesInRange (env : ChatEnv) : Prop :=
  ∀ c ∈ env.run.consumed, env.startT ≤ c.t ∧ c.t ≤ env.endT

/-- Clock monotonicity for an OpenAI stream environment. -/
def oaiTimesInRange (env : OAIEnv) : Prop :=
  ∀ ev ∈ env.run.consumed, env.startT ≤ ev.t ∧ ev.t ≤ env.endT

/-- Clock monotonicity for a Gemini stream environment. -/
def gemTimesInRange (env : GemEnv) : Prop :=
  ∀ c ∈ env.run.consumed, env.startT ≤ c.t ∧ c.t ≤ env.endT

/-- A stream chunk carrying the fragment "Hello" at time 2. -/
def chunkHello : ChatChunk :=
  { t := 2, choices := [{ delta := some { content := some "Hello" } }] }

/-- A stream chunk carrying the fragment " world" at time 3. -/
def chunkWorld : ChatChunk :=
  { t := 3, choices := [{ delta := some { content := some " world" } }] }

/-- A usage-bearing terminal chunk reporting 3 input / 5 output tokens. -/
def chunkUsage1 : ChatChunk :=
  { t := 4, usage := some { prompt_tokens := some 3, completion_tokens := some 5 } }

/-- A second usage-bearing chunk reporting different counters. -/
def chunkUsage2 : ChatChunk :=
  { t := 5, usage := some { prompt_tokens := some 7, completion_tokens := some 9 } }

/-- A concrete successful Anthropic/Grok stream: two fragments and two
usage chunks between readings 1 and 10. -/
def demoChatEnv : ChatEnv :=
  { run := StreamRun.ok [chunkHello, chunkWorld, chunkUsage1, chunkUsage2],
    startT := 1, endT := 10 }

/-- A concrete empty successful Anthropic/Grok stream. -/
def emptyChatEnv : ChatEnv :=
  { run := StreamRun.ok [], startT := 1, endT := 2 }

/-- An OpenAI `response.output_text.delta` event with delta "Hello". -/
def oaiHello : OAIEvent :=
  { t := 2, etype := "response.output_text.delta", delta := "Hello" }

/-- An OpenAI `response.output_text.delta` event with delta " world". -/
def oaiWorld : OAIEvent :=
  { t := 3, etype := "response.output_text.delta", delta := " world" }

/-- An OpenAI terminal `response.completed` event. -/
def oaiCompleted : OAIEvent :=
  { t := 4, etype := "response.completed" }

/-- An OpenAI in-stream `response.error` event. -/
def oaiErrorEvent : OAIEvent :=
  { t := 3, etype := "response.error" }

/-- A concrete successful OpenAI stream yielding "Hello" and " world". -/
def demoOaiEnv : OAIEnv :=
  { run := StreamRun.ok [oaiHello, oaiWorld, oaiCompleted],
    startT := 1, endT := 10 }

/-- A concrete OpenAI stream that delivers "Hello" and then an
in-stream error event. -/
def demoOaiErrEnv : OAIEnv :=
  { run := StreamRun.ok [oaiHello, oaiErrorEvent], startT := 1, endT := 10 }

/-- A concrete successful Gemini stream yielding "Hello" and " world". -/
def demoGemEnv : GemEnv :=
  { run := StreamRun.ok [{ t := 2, text := some "Hello" },
      { t := 3, text := some " world" }],
    startT := 1, endT := 10 }

/-- A concrete Gemini stream yielding no chunks at all. -/
def emptyGemEnv : GemEnv :=
  { run := StreamRun.ok [], startT := 1, endT := 2 }

/-- A concrete timeout-style exception. -/
def demoExc : PyExc :=
  { className := "APITimeoutError", message := "Request timed out." }

/-- A stream that yields "Hello" and then raises `demoExc`. -/
def demoFailChatEnv : ChatEnv :=
  { run := StreamRun.fail [chunkHello] demoExc, startT := 1, endT := 10 }

/-- An OpenAI stream that raises `demoExc` immediately. -/
def demoFailOaiEnv : OAIEnv :=
  { run := StreamRun.fail [] demoExc, startT := 1, endT := 10 }

/-- A Gemini stream that raises `demoExc` immediately. -/
def demoFailGemEnv : GemEnv :=
  { run := StreamRun.fail [] demoExc, startT := 1, endT := 10 }

/-- Benign per-call environments for exercising `run_task`: every
stream succeeds immediately with no events. -/
def benignCallEnv : CallEnv :=
  { chat := emptyChatEnv,
    oai := { run := StreamRun.ok [], startT := 1, endT := 2 },
    gem := emptyGemEnv }

theorem pyJoin_append (xs ys : List String) :
    pyJoin (xs ++ ys) = pyJoin xs ++ pyJoin ys := by
  induction xs with
  | nil => simp [pyJoin]
  | cons s rest ih => simp [pyJoin, ih, String.append_assoc]

theorem chatStepModel_first_token_time (acc : ChatAccum) (c : ChatChunk) :
    (chatStepModel acc c).first_token_time = acc.first_token_time := by
  unfold chatStepModel
  split <;> try rfl
  split <;> rfl

theorem chatStepModel_accum_text_parts (acc : ChatAccum) (c : ChatChunk) :
    (chatStepModel acc c).accum_text_parts = acc.accum_text_parts := by
  unfold chatStepModel
  split <;> try rfl
  split <;> rfl

theorem chatStepModel_input_tokens (acc : ChatAccum) (c : ChatChunk) :
    (chatStepModel acc c).input_tokens = acc.input_tokens := by
  unfold chatStepModel
  split <;> try rfl
  split <;> rfl

theorem chatStepModel_output_tokens (acc : ChatAccum) (c : ChatChunk) :
    (chatStepModel acc c).output_tokens = acc.output_tokens := by
  unfold chatStepModel
  split <;> try rfl
  split <;> rfl

theorem chatStepUsage_first_token_time (acc : ChatAccum) (c : ChatChunk) :
    (chatStepUsage acc c).first_token_time = acc.first_token_time := by
  unfold chatStepUsage
  split <;> try rfl
  split <;> rfl

theorem chatStepUsage_accum_text_parts (acc : ChatAccum) (c : ChatChunk) :
    (chatStepUsage acc c).accum_text_parts = acc.accum_text_parts := by
  unfold chatStepUsage
  split <;> try rfl
  split <;> rfl

theorem chatStepText_input_tokens (acc : ChatAccum) (c : ChatChunk) :
    (chatStepText acc c).input_tokens = acc.input_tokens := by
  unfold chatStepText
  split <;> try rfl
  split <;> try rfl
  split <;> try rfl
  split <;> try rfl
  split <;> rfl

theorem chatStepText_output_tokens (acc : ChatAccum) (c : ChatChunk) :
    (chatStepText acc c).output_tokens = acc.output_tokens := by
  unfold chatStepText
  split <;> try rfl
  split <;> try rfl
  split <;> try rfl
  split <;> try rfl
  split <;> rfl

theorem chatStepText_first_token_time (acc : ChatAccum) (c : ChatChunk) :
    (chatStepText acc c).first_token_time = acc.first_token_time ∨
      (chatStepText acc c).first_token_time = some c.t := by
  unfold chatStepText
  split <;> try (left; rfl)
  split <;> try (left; rfl)
  split <;> try (left; rfl)
  split <;> try (left; rfl)
  split
  · right; rfl
  · left; rfl

theorem chatStep_first_token_time (acc : ChatAccum) (c : ChatChunk) :
    (chatStep acc c).first_token_time = acc.first_token_time ∨
      (chatStep acc c).first_token_time = some c.t := by
  unfold chatStep
  rcases chatStepText_first_token_time (chatStepUsage (chatStepModel acc c) c) c
    with h | h
  · left
    rw [h, chatStepUsage_first_token_time, chatStepModel_first_token_time]
  · right; exact h

theorem chatConsume_first_token_time (l : List ChatChunk) (acc : ChatAccum) :
    (chatConsume acc l).first_token_time = acc.first_token_time ∨
      ∃ c ∈ l, (chatConsume acc l).first_token_time = some c.t := by
  induction l generalizing acc with
  | nil => left; rfl
  | cons c rest ih =>
    have hstep := chatStep_first_token_time acc c
    rcases ih (chatStep acc c) with h | ⟨c1, hc1, h⟩
    · rcases hstep with h2 | h2
      · left; simpa [chatConsume, h] using h2
      · right; exact ⟨c, by simp, by simpa [chatConsume, h] using h2⟩
    · right; exact ⟨c1, by simp [hc1], by simpa [chatConsume] using h⟩

theorem chatStepText_accum (acc : ChatAccum) (c : ChatChunk) :
    (chatStepText acc c).accum_text_parts =
      acc.accum_text_parts ++ (chatFragment c).toList := by
  unfold chatStepText chatFragment
  cases hch : c.choices with
  | nil => simp
  | cons c0 crest =>
    cases hd : c0.delta with
    | none => simp [hd]
    | some d =>
      cases hc : d.content with
      | none => simp [hd, hc]
      | some piece =>
        by_cases hp : piece = ""
        · simp [hd, hc, hp]
        · simp only [hd, hc, hp]
          split
          all_goals first
          | exact absurd (by assumption) hp
          | (split <;> rfl)

theorem chatStep_accum (acc : ChatAccum) (c : ChatChunk) :
    (chatStep acc c).accum_text_parts =
      acc.accum_text_parts ++ (chatFragment c).toList := by
  unfold chatStep
  rw [chatStepText_accum, chatStepUsage_accum_text_parts,
    chatStepModel_accum_text_parts]

theorem chatConsume_accum (l : List ChatChunk) (acc : ChatAccum) :
    (chatConsume acc l).accum_text_parts =
      acc.accum_text_parts ++ spec_received_fragments_chat l := by
  induction l generalizing acc with
  | nil => simp [chatConsume, spec_received_fragments_chat]
  | cons c rest ih =>
    show (chatConsume (chatStep acc c) rest).accum_text_parts = _
    rw [ih, chatStep_accum]
    cases hf : chatFragment c <;>
      simp [spec_received_fragments_chat, List.filterMap_cons, hf]

theorem chatStepUsage_tokens_frozen (acc : ChatAccum) (c : ChatChunk)
    (h : ¬(acc.input_tokens = none ∧ acc.output_tokens = none)) :
    (chatStepUsage acc c).input_tokens = acc.input_tokens ∧
      (chatStepUsage acc c).output_tokens = acc.output_tokens := by
  unfold chatStepUsage
  split
  · split
    · exact absurd (by assumption) h
    · exact ⟨rfl, rfl⟩
  · exact ⟨rfl, rfl⟩

theorem chatStep_tokens_frozen (acc : ChatAccum) (c : ChatChunk)
    (h : ¬(acc.input_tokens = none ∧ acc.output_tokens = none)) :
    (chatStep acc c).input_tokens = acc.input_tokens ∧
      (chatStep acc c).output_tokens = acc.output_tokens := by
  unfold chatStep
  have h2 : ¬((chatStepModel acc c).input_tokens = none ∧
      (chatStepModel acc c).output_tokens = none) := by
    rw [chatStepModel_input_tokens, chatStepModel_output_tokens]; exact h
  have hu := chatStepUsage_tokens_frozen (chatStepModel acc c) c h2
  constructor
  · rw [chatStepText_input_tokens, hu.1, chatStepModel_input_tokens]
  · rw [chatStepText_output_tokens, hu.2, chatStepModel_output_tokens]

theorem chatConsume_tokens_frozen (l : List ChatChunk) (acc : ChatAccum)
    (h : ¬(acc.input_tokens = none ∧ acc.output_tokens = none)) :
    (chatConsume acc l).input_tokens = acc.input_tokens ∧
      (chatConsume acc l).output_tokens = acc.output_tokens := by
  induction l generalizing acc with
  | nil => exact ⟨rfl, rfl⟩
  | cons c rest ih =>
    have hs := chatStep_tokens_frozen acc c h
    have h2 : ¬((chatStep acc c).input_tokens = none ∧
        (chatStep acc c).output_tokens = none) := by
      rw [hs.1, hs.2]; exact h
    have hrest := ih (chatStep acc c) h2
    have hrun : chatConsume acc (c :: rest) =
        chatConsume (chatStep acc c) rest := rfl
    exact ⟨by rw [hrun, hrest.1, hs.1], by rw [hrun, hrest.2, hs.2]⟩

theorem chatStepUsage_tokens_capture (acc : ChatAccum) (c : ChatChunk)
    (u : Usage) (hu : c.usage = some u) (hin : acc.input_tokens = none)
    (hout : acc.output_tokens = none) :
    (chatStepUsage acc c).input_tokens = u.prompt_tokens ∧
      (chatStepUsage acc c).output_tokens = u.completion_tokens := by
  unfold chatStepUsage
  simp only [hu]
  rw [if_pos ⟨hin, hout⟩]
  exact ⟨rfl, rfl⟩

theorem chatStep_tokens_capture (acc : ChatAccum) (c : ChatChunk) (u : Usage)
    (hu : c.usage = some u) (hin : acc.input_tokens = none)
    (hout : acc.output_tokens = none) :
    (chatStep acc c).input_tokens = u.prompt_tokens ∧
      (chatStep acc c).output_tokens = u.completion_tokens := by
  unfold chatStep
  have hcap := chatStepUsage_tokens_capture (chatStepModel acc c) c u hu
    ((chatStepModel_input_tokens acc c).trans hin)
    ((chatStepModel_output_tokens acc c).trans hout)
  constructor
  · rw [chatStepText_input_tokens, hcap.1]
  · rw [chatStepText_output_tokens, hcap.2]

theorem bearsUsage_exists_usage (c : ChatChunk) (hb : bearsUsage c = true) :
    ∃ u, c.usage = some u := by
  unfold bearsUsage at hb
  cases hu : c.usage with
  | none => rw [hu] at hb; simp at hb
  | some u => exact ⟨u, rfl⟩

theorem bearsUsage_some_counts (c : ChatChunk) (u : Usage)
    (hu : c.usage = some u) (hb : bearsUsage c = true) :
    ¬(u.prompt_tokens = none ∧ u.completion_tokens = none) := by
  unfold bearsUsage at hb
  rw [hu] at hb
  intro hcon
  simp_all

theorem chatStep_tokens_nonbearing (acc : ChatAccum) (c : ChatChunk)
    (hb : bearsUsage c = false) (hin : acc.input_tokens = none)
    (hout : acc.output_tokens = none) :
    (chatStep acc c).input_tokens = none ∧
      (chatStep acc c).output_tokens = none := by
  cases hu : c.usage with
  | none =>
    unfold chatStep
    have hid : chatStepUsage (chatStepModel acc c) c = chatStepModel acc c := by
      unfold chatStepUsage
      simp only [hu]
    rw [chatStepText_input_tokens, chatStepText_output_tokens, hid,
      chatStepModel_input_tokens, chatStepModel_output_tokens]
    exact ⟨hin, hout⟩
  | some u =>
    unfold bearsUsage at hb
    rw [hu] at hb
    have hcap := chatStep_tokens_capture acc c u hu hin hout
    rw [hcap.1, hcap.2]
    simp at hb
    exact ⟨hb.1, hb.2⟩

theorem chatConsume_usage_first_wins (l : List ChatChunk) (acc : ChatAccum)
    (c : ChatChunk) (hin : acc.input_tokens = none)
    (hout : acc.output_tokens = none)
    (hfind : l.find? bearsUsage = some c) :
    (chatConsume acc l).input_tokens = (usageOf c).prompt_tokens ∧
      (chatConsume acc l).output_tokens = (usageOf c).completion_tokens := by
  induction l generalizing acc with
  | nil => simp at hfind
  | cons d rest ih =>
    by_cases hb : bearsUsage d
    · rw [List.find?_cons_of_pos _ hb] at hfind
      injection hfind with hdc
      subst hdc
      obtain ⟨u, hu⟩ := bearsUsage_exists_usage d hb
      have hcap := chatStep_tokens_capture acc d u hu hin hout
      have hnb : ¬((chatStep acc d).input_tokens = none ∧
          (chatStep acc d).output_tokens = none) := by
        rw [hcap.1, hcap.2]
        exact bearsUsage_some_counts d u hu hb
      have hfr := chatConsume_tokens_frozen rest (chatStep acc d) hnb
      have hrun : chatConsume acc (d :: rest) =
          chatConsume (chatStep acc d) rest := rfl
      rw [hrun, hfr.1, hfr.2, hcap.1, hcap.2]
      unfold usageOf
      rw [hu]
      exact ⟨rfl, rfl⟩
    · rw [List.find?_cons_of_neg _ (by simpa using hb)] at hfind
      have hstep := chatStep_tokens_nonbearing acc d (by simpa using hb) hin hout
      have hrun : chatConsume acc (d :: rest) =
          chatConsume (chatStep acc d) rest := rfl
      rw [hrun]
      exact ih (chatStep acc d) hstep.1 hstep.2 hfind

theorem oaiDeltaStep_parts (acc : OAIAccum) (ev : OAIEvent) :
    (oaiDeltaStep acc ev).accum_text_parts =
      acc.accum_text_parts ++ [ev.delta] := by
  unfold oaiDeltaStep
  split <;> rfl

theorem oaiDeltaStep_first_token_time (acc : OAIAccum) (ev : OAIEvent) :
    (oaiDeltaStep acc ev).first_token_time = acc.first_token_time ∨
      (oaiDeltaStep acc ev).first_token_time = some ev.t := by
  unfold oaiDeltaStep
  split
  · right; rfl
  · left; rfl

theorem oaiDeltaStep_error_category (acc : OAIAccum) (ev : OAIEvent) :
    (oaiDeltaStep acc ev).error_category = acc.error_category := by
  unfold oaiDeltaStep
  split <;> rfl

theorem oaiLoop_delta_red (acc : OAIAccum) (ev : OAIEvent)
    (rest : List OAIEvent)
    (h1 : ¬ev.etype = "response.refuse.delta")
    (h2 : ¬ev.etype = "response.error")
    (h3 : ev.etype = "response.output_text.delta") :
    oaiLoop acc (ev :: rest) = oaiLoop (oaiDeltaStep acc ev) rest := by
  by_cases hf : acc.first_token_time = none <;>
    simp [oaiLoop, oaiDeltaStep, h1, h2, h3, hf]

theorem oaiLoop_first_token_time (evs : List OAIEvent) (acc : OAIAccum) :
    (oaiLoop acc evs).first_token_time = acc.first_token_time ∨
      ∃ ev ∈ evs, (oaiLoop acc evs).first_token_time = some ev.t := by
  induction evs generalizing acc with
  | nil => left; rfl
  | cons ev rest ih =>
    by_cases h1 : ev.etype = "response.refuse.delta"
    · have hred : oaiLoop acc (ev :: rest) = oaiLoop acc rest := by
        simp [oaiLoop, h1]
      rw [hred]
      rcases ih acc with h | ⟨e, he, h⟩
      · left; exact h
      · right; exact ⟨e, List.mem_cons_of_mem _ he, h⟩
    · by_cases h2 : ev.etype = "response.error"
      · have hred : oaiLoop acc (ev :: rest) =
            { acc with error_category := some "api_error" } := by
          simp [oaiLoop, h1, h2]
        rw [hred]; left; rfl
      · by_cases h3 : ev.etype = "response.output_text.delta"
        · rw [oaiLoop_delta_red acc ev rest h1 h2 h3]
          rcases ih (oaiDeltaStep acc ev) with h | ⟨e, he, h⟩
          · rw [h]
            rcases oaiDeltaStep_first_token_time acc ev with h4 | h4
            · left; exact h4
            · right; exact ⟨ev, List.mem_cons_self _ _, h4⟩
          · right; exact ⟨e, List.mem_cons_of_mem _ he, h⟩
        · by_cases h4 : ev.etype = "response.completed"
          · have hred : oaiLoop acc (ev :: rest) = acc := by
              simp [oaiLoop, h1, h2, h3, h4]
            rw [hred]; left; rfl
          · have hred : oaiLoop acc (ev :: rest) = oaiLoop acc rest := by
              simp [oaiLoop, h1, h2, h3, h4]
            rw [hred]
            rcases ih acc with h | ⟨e, he, h⟩
            · left; exact h
            · right; exact ⟨e, List.mem_cons_of_mem _ he, h⟩

theorem oaiLoop_join (evs : List OAIEvent) (acc : OAIAccum) :
    pyJoin (oaiLoop acc evs).accum_text_parts =
      pyJoin acc.accum_text_parts ++
        pyJoin (spec_received_fragments_oai evs) := by
  induction evs generalizing acc with
  | nil => simp [oaiLoop, spec_received_fragments_oai, pyJoin]
  | cons ev rest ih =>
    by_cases h1 : ev.etype = "response.refuse.delta"
    · have hred : oaiLoop acc (ev :: rest) = oaiLoop acc rest := by
        simp [oaiLoop, h1]
      have hfrag : spec_received_fragments_oai (ev :: rest) =
          spec_received_fragments_oai rest := by
        simp [spec_received_fragments_oai, h1]
      rw [hred, hfrag, ih]
    · by_cases h2 : ev.etype = "response.error"
      · have hred : oaiLoop acc (ev :: rest) =
            { acc with error_category := some "api_error" } := by
          simp [oaiLoop, h1, h2]
        have hfrag : spec_received_fragments_oai (ev :: rest) = [] := by
          simp [spec_received_fragments_oai, h2]
        rw [hred, hfrag]
        simp [pyJoin, String.append_empty]
      · by_cases h3 : ev.etype = "response.output_text.delta"
        · rw [oaiLoop_delta_red acc ev rest h1 h2 h3, ih,
            oaiDeltaStep_parts, pyJoin_append]
          have hfrag : spec_received_fragments_oai (ev :: rest) =
              if ev.delta = "" then spec_received_fragments_oai rest
              else ev.delta :: spec_received_fragments_oai rest := by
            by_cases hd : ev.delta = "" <;>
              simp [spec_received_fragments_oai, h1, h2, h3, hd]
          rw [hfrag]
          by_cases hd : ev.delta = "" <;>
            simp [hd, pyJoin, String.append_assoc, String.append_empty]
        · by_cases h4 : ev.etype = "response.completed"
          · have hred : oaiLoop acc (ev :: rest) = acc := by
              simp [oaiLoop, h1, h2, h3, h4]
            have hfrag : spec_received_fragments_oai (ev :: rest) = [] := by
              simp [spec_received_fragments_oai, h4]
            rw [hred, hfrag]
            simp [pyJoin, String.append_empty]
          · have hred : oaiLoop acc (ev :: rest) = oaiLoop acc rest := by
              simp [oaiLoop, h1, h2, h3, h4]
            have hfrag : spec_received_fragments_oai (ev :: rest) =
                spec_received_fragments_oai rest := by
              simp [spec_received_fragments_oai, h1, h2, h3, h4]
            rw [hred, hfrag, ih]

theorem oaiLoop_error_category (evs : List OAIEvent) (acc : OAIAccum) :
    (oaiLoop acc evs).error_category = acc.error_category ∨
      (oaiLoop acc evs).error_category = some "api_error" := by
  induction evs generalizing acc with
  | nil => left; rfl
  | cons ev rest ih =>
    by_cases h1 : ev.etype = "response.refuse.delta"
    · have hred : oaiLoop acc (ev :: rest) = oaiLoop acc rest := by
        simp [oaiLoop, h1]
      rw [hred]; exact ih acc
    · by_cases h2 : ev.etype = "response.error"
      · have hred : oaiLoop acc (ev :: rest) =
            { acc with error_category := some "api_error" } := by
          simp [oaiLoop, h1, h2]
        rw [hred]; right; rfl
      · by_cases h3 : ev.etype = "response.output_text.delta"
        · rw [oaiLoop_delta_red acc ev rest h1 h2 h3]
          rcases ih (oaiDeltaStep acc ev) with h | h
          · rw [h, oaiDeltaStep_error_category]; left; rfl
          · right; exact h
        · by_cases h4 : ev.etype = "response.completed"
          · have hred : oaiLoop acc (ev :: rest) = acc := by
              simp [oaiLoop, h1, h2, h3, h4]
            rw [hred]; left; rfl
          · have hred : oaiLoop acc (ev :: rest) = oaiLoop acc rest := by
              simp [oaiLoop, h1, h2, h3, h4]
            rw [hred]; exact ih acc

theorem gemDeltaStep_accum (acc : GemAccum) (c : GemChunk) (s : String) :
    (gemDeltaStep acc c s).accum = acc.accum ++ [s] := by
  unfold gemDeltaStep
  split <;> rfl

theorem gemDeltaStep_first_token_time (acc : GemAccum) (c : GemChunk)
    (s : String) :
    (gemDeltaStep acc c s).first_token_time = acc.first_token_time ∨
      (gemDeltaStep acc c s).first_token_time = some c.t := by
  unfold gemDeltaStep
  split
  · right; rfl
  · left; rfl

theorem gemLoop_delta_red (acc : GemAccum) (c : GemChunk) (s : String)
    (rest : List GemChunk) (ht : c.text = some s) (hs : ¬s = "") :
    gemLoop acc (c :: rest) = gemLoop (gemDeltaStep acc c s) rest := by
  by_cases hf : acc.first_token_time = none <;>
    simp [gemLoop, gemDeltaStep, ht, hs, hf]

theorem gemLoop_skip_red (acc : GemAccum) (c : GemChunk)
    (rest : List GemChunk)
    (h : c.text = none ∨ c.text = some "") :
    gemLoop acc (c :: rest) = gemLoop acc rest := by
  rcases h with h | h <;> simp [gemLoop, h]

theorem gemLoop_first_token_time (l : List GemChunk) (acc : GemAccum) :
    (gemLoop acc l).first_token_time = acc.first_token_time ∨
      ∃ c ∈ l, (gemLoop acc l).first_token_time = some c.t := by
  induction l generalizing acc with
  | nil => left; rfl
  | cons c rest ih =>
    cases ht : c.text with
    | none =>
      rw [gemLoop_skip_red acc c rest (Or.inl ht)]
      rcases ih acc with h | ⟨e, he, h⟩
      · left; exact h
      · right; exact ⟨e, List.mem_cons_of_mem _ he, h⟩
    | some s =>
      by_cases hs : s = ""
      · rw [gemLoop_skip_red acc c rest (Or.inr (hs ▸ ht))]
        rcases ih acc with h | ⟨e, he, h⟩
        · left; exact h
        · right; exact ⟨e, List.mem_cons_of_mem _ he, h⟩
      · rw [gemLoop_delta_red acc c s rest ht hs]
        rcases ih (gemDeltaStep acc c s) with h | ⟨e, he, h⟩
        · rw [h]
          rcases gemDeltaStep_first_token_time acc c s with h4 | h4
          · left; exact h4
          · right; exact ⟨c, List.mem_cons_self _ _, h4⟩
        · right; exact ⟨e, List.mem_cons_of_mem _ he, h⟩

theorem gemLoop_accum (l : List GemChunk) (acc : GemAccum) :
    (gemLoop acc l).accum = acc.accum ++ spec_received_fragments_gem l := by
  induction l generalizing acc with
  | nil => simp [gemLoop, spec_received_fragments_gem]
  | cons c rest ih =>
    cases ht : c.text with
    | none =>
      rw [gemLoop_skip_red acc c rest (Or.inl ht), ih]
      simp [spec_received_fragments_gem, List.filterMap_cons, ht]
    | some s =>
      by_cases hs : s = ""
      · rw [gemLoop_skip_red acc c rest (Or.inr (hs ▸ ht)), ih]
        simp [spec_received_fragments_gem, List.filterMap_cons, ht, hs]
      · rw [gemLoop_delta_red acc c s rest ht hs, ih, gemDeltaStep_accum]
        simp [spec_received_fragments_gem, List.filterMap_cons, ht, hs]

theorem ttftMs_bounds (startT endT : ℚ) (ft : Option ℚ) (x : ℚ)
    (hx : ttftMs startT ft = some x)
    (hrange : ∀ t, ft = some t → startT ≤ t ∧ t ≤ endT) :
    0 ≤ x ∧ x ≤ latencyMs startT endT := by
  cases ft with
  | none => simp [ttftMs] at hx
  | some t =>
    simp only [ttftMs] at hx
    by_cases h0 : t = 0
    · rw [if_pos h0] at hx; exact Option.noConfusion hx
    · rw [if_neg h0] at hx
      injection hx with hx
      obtain ⟨h1, h2⟩ := hrange t rfl
      subst hx
      unfold latencyMs
      constructor <;> nlinarith

theorem fttRange_of_origin (startT endT : ℚ) (ft : Option ℚ)
    (horig : ft = none ∨ ∃ t0, (startT ≤ t0 ∧ t0 ≤ endT) ∧ ft = some t0) :
    ∀ t, ft = some t → startT ≤ t ∧ t ≤ endT := by
  intro t ht
  rcases horig with h | ⟨t0, hb, h⟩
  · rw [h] at ht; exact Option.noConfusion ht
  · rw [h] at ht; injection ht with ht; subst ht; exact hb

theorem openai_total_ttft (sp up : String) (env : OAIEnv) :
    (OpenAIProvider.generate sp up env).total_latency_ms =
        some (latencyMs env.startT env.endT) ∧
      (OpenAIProvider.generate sp up env).ttft_ms =
        ttftMs env.startT (oaiLoop {} env.run.consumed).first_token_time := by
  cases henv : env.run with
  | ok evs => simp [OpenAIProvider.generate, henv, StreamRun.consumed]
  | fail evs e => simp [OpenAIProvider.generate, henv, StreamRun.consumed]

theorem gemini_total_ttft (sp up : String) (env : GemEnv) :
    (GeminiProvider.generate sp up env).total_latency_ms =
        some (latencyMs env.startT env.endT) ∧
      (GeminiProvider.generate sp up env).ttft_ms =
        ttftMs env.startT (gemLoop {} env.run.consumed).first_token_time := by
  cases henv : env.run with
  | ok evs => simp [GeminiProvider.generate, henv, StreamRun.consumed]
  | fail evs e => simp [GeminiProvider.generate, henv, StreamRun.consumed]

/-- C4: for every adapter result, `total_latency_ms` is always present,
and whenever `ttft_ms` is present it satisfies
`0 ≤ ttft_ms ≤ total_latency_ms`, assuming only that the stream
timestamps lie between the start and end `perf_counter()` readings
(clock monotonicity).  For the OpenAI and Gemini adapters this is
stated on the returned `ProviderResponse`; for the Anthropic and Grok
adapters on the fields computed at their return site. -/
theorem C4_ttft_within_total_latency
    (system_prompt user_prompt : String)
    (aenv kenv : ChatEnv) (oenv : OAIEnv) (menv : GemEnv)
    (ha : chatTimesInRange aenv) (hk : chatTimesInRange kenv)
    (ho : oaiTimesInRange oenv) (hm : gemTimesInRange menv) :
    ((OpenAIProvider.generate system_prompt user_prompt oenv).total_latency_ms
        ≠ none ∧
      ∀ x tl,
        (OpenAIProvider.generate system_prompt user_prompt oenv).ttft_ms
            = some x →
        (OpenAIProvider.generate system_prompt user_prompt
            oenv).total_latency_ms = some tl →
        0 ≤ x ∧ x ≤ tl) ∧
    ((GeminiProvider.generate system_prompt user_prompt menv).total_latency_ms
        ≠ none ∧
      ∀ x tl,
        (GeminiProvider.generate system_prompt user_prompt menv).ttft_ms
            = some x →
        (GeminiProvider.generate system_prompt user_prompt
            menv).total_latency_ms = some tl →
        0 ≤ x ∧ x ≤ tl) ∧
    (∀ x,
      (AnthropicProvider.generate_fields system_prompt user_prompt
          aenv).ttft_ms = some x →
      0 ≤ x ∧ x ≤ (AnthropicProvider.generate_fields system_prompt
          user_prompt aenv).total_latency_ms) ∧
    (∀ x,
      (GrokProvider.generate_fields system_prompt user_prompt
          kenv).ttft_ms = some x →
      0 ≤ x ∧ x ≤ (GrokProvider.generate_fields system_prompt
          user_prompt kenv).total_latency_ms) := by
  obtain ⟨hoT, hoF⟩ := openai_total_ttft system_prompt user_prompt oenv
  obtain ⟨hmT, hmF⟩ := gemini_total_ttft system_prompt user_prompt menv
  have hoR : ∀ t, (oaiLoop {} oenv.run.consumed).first_token_time = some t →
      oenv.startT ≤ t ∧ t ≤ oenv.endT := by
    apply fttRange_of_origin
    rcases oaiLoop_first_token_time oenv.run.consumed {} with h | ⟨ev, hev, h⟩
    · left; exact h
    · right; exact ⟨ev.t, ho ev hev, h⟩
  have hmR : ∀ t, (gemLoop {} menv.run.consumed).first_token_time = some t →
      menv.startT ≤ t ∧ t ≤ menv.endT := by
    apply fttRange_of_origin
    rcases gemLoop_first_token_time menv.run.consumed {} with h | ⟨c, hc, h⟩
    · left; exact h
    · right; exact ⟨c.t, hm c hc, h⟩
  have haR : ∀ t, (chatConsume {} aenv.run.consumed).first_token_time = some t →
      aenv.startT ≤ t ∧ t ≤ aenv.endT := by
    apply fttRange_of_origin
    rcases chatConsume_first_token_time aenv.run.consumed {} with h | ⟨c, hc, h⟩
    · left; exact h
    · right; exact ⟨c.t, ha c hc, h⟩
  have hkR : ∀ t, (chatConsume {} kenv.run.consumed).first_token_time = some t →
      kenv.startT ≤ t ∧ t ≤ kenv.endT := by
    apply fttRange_of_origin
    rcases chatConsume_first_token_time kenv.run.consumed {} with h | ⟨c, hc, h⟩
    · left; exact h
    · right; exact ⟨c.t, hk c hc, h⟩
  refine ⟨⟨by rw [hoT]; simp, ?_⟩, ⟨by rw [hmT]; simp, ?_⟩, ?_, ?_⟩
  · intro x tl hx htl
    rw [hoF] at hx
    have hb := ttftMs_bounds oenv.startT oenv.endT _ x hx hoR
    rw [hoT] at htl
    injection htl with htl
    rw [← htl]
    exact hb
  · intro x tl hx htl
    rw [hmF] at hx
    have hb := ttftMs_bounds menv.startT menv.endT _ x hx hmR
    rw [hmT] at htl
    injection htl with htl
    rw [← htl]
    exact hb
  · intro x hx
    have hfield : (AnthropicProvider.generate_fields system_prompt
        user_prompt aenv).ttft_ms =
        ttftMs aenv.startT (chatConsume {} aenv.run.consumed).first_token_time :=
      rfl
    rw [hfield] at hx
    have hb := ttftMs_bounds aenv.startT aenv.endT _ x hx haR
    have htot : (AnthropicProvider.generate_fields system_prompt
        user_prompt aenv).total_latency_ms =
        latencyMs aenv.startT aenv.endT := rfl
    rw [htot]
    exact hb
  · intro x hx
    have hfield : (GrokProvider.generate_fields system_prompt
        user_prompt kenv).ttft_ms =
        ttftMs kenv.startT (chatConsume {} kenv.run.consumed).first_token_time :=
      rfl
    rw [hfield] at hx
    have hb := ttftMs_bounds kenv.startT kenv.endT _ x hx hkR
    have htot : (GrokProvider.generate_fields system_prompt
        user_prompt kenv).total_latency_ms =
        latencyMs kenv.startT kenv.endT := rfl
    rw [htot]
    exact hb

theorem demoChat_range : chatTimesInRange demoChatEnv := by
  intro c hc
  simp only [demoChatEnv, StreamRun.consumed, List.mem_cons,
    List.not_mem_nil, or_false] at hc
  rcases hc with h | h | h | h <;> subst h <;>
    constructor <;>
    norm_num [demoChatEnv, chunkHello, chunkWorld, chunkUsage1, chunkUsage2]

theorem demoOai_range : oaiTimesInRange demoOaiEnv := by
  intro ev hev
  simp only [demoOaiEnv, StreamRun.consumed, List.mem_cons,
    List.not_mem_nil, or_false] at hev
  rcases hev with h | h | h <;> subst h <;>
    constructor <;>
    norm_num [demoOaiEnv, oaiHello, oaiWorld, oaiCompleted]

theorem demoGem_range : gemTimesInRange demoGemEnv := by
  intro c hc
  simp only [demoGemEnv, StreamRun.consumed, List.mem_cons,
    List.not_mem_nil, or_false] at hc
  rcases hc with h | h <;> subst h <;>
    constructor <;> norm_num [demoGemEnv]

/-- C4 witness: at the concrete demo environments the theorem yields
the concrete bound `0 ≤ 1000` and `1000 ≤ total latency` for the
Anthropic time to first token. -/
theorem C4_witness :
    (0 : ℚ) ≤ 1000 ∧
      (1000 : ℚ) ≤ (AnthropicProvider.generate_fields "sys" "user"
          demoChatEnv).total_latency_ms := by
  have hx : (AnthropicProvider.generate_fields "sys" "user"
      demoChatEnv).ttft_ms = some 1000 := by
    have hftt : (chatConsume {} demoChatEnv.run.consumed).first_token_time =
        some 2 := rfl
    show ttftMs demoChatEnv.startT
        (chatConsume {} demoChatEnv.run.consumed).first_token_time = some 1000
    rw [hftt]
    show ttftMs 1 (some 2) = some 1000
    norm_num [ttftMs]
  exact (C4_ttft_within_total_latency "sys" "user" demoChatEnv demoChatEnv
    demoOaiEnv demoGemEnv demoChat_range demoChat_range demoOai_range
    demoGem_range).2.2.1 1000 hx

theorem pyJoin_nil_left (l : List String) : pyJoin ([] ++ l) = pyJoin l := rfl

/-- C5: on every stream the adapter consumes to completion, the text it
computes is exactly the concatenation, in arrival order, of the
non-empty fragments the stream delivered, stripped of surrounding
whitespace.  Stated on the returned response for OpenAI (under its
success condition) and Gemini, and on the fields computed at the
return site for Anthropic and Grok. -/
theorem C5_text_is_stripped_concat_of_fragments
    (system_prompt user_prompt : String)
    (chunks kchunks : List ChatChunk) (evs : List OAIEvent)
    (gchunks : List GemChunk) (s1 t1 s2 t2 s3 t3 s4 t4 : ℚ)
    (hok : (OpenAIProvider.generate system_prompt user_prompt
      ⟨StreamRun.ok evs, s3, t3⟩).error_category = none) :
    (AnthropicProvider.generate_fields system_prompt user_prompt
        ⟨StreamRun.ok chunks, s1, t1⟩).text =
      some (pyStrip (pyJoin (spec_received_fragments_chat chunks))) ∧
    (GrokProvider.generate_fields system_prompt user_prompt
        ⟨StreamRun.ok kchunks, s2, t2⟩).text =
      some (pyStrip (pyJoin (spec_received_fragments_chat kchunks))) ∧
    (OpenAIProvider.generate system_prompt user_prompt
        ⟨StreamRun.ok evs, s3, t3⟩).text =
      some (pyStrip (pyJoin (spec_received_fragments_oai evs))) ∧
    (GeminiProvider.generate system_prompt user_prompt
        ⟨StreamRun.ok gchunks, s4, t4⟩).text =
      some (pyStrip (pyJoin (spec_received_fragments_gem gchunks))) := by
  refine ⟨?_, ?_, ?_, ?_⟩
  · show some (pyStrip (pyJoin (chatConsume {} chunks).accum_text_parts)) = _
    rw [chatConsume_accum]
    rfl
  · show some (pyStrip (pyJoin (chatConsume {} kchunks).accum_text_parts)) = _
    rw [chatConsume_accum]
    rfl
  · show some (pyStrip (pyJoin (oaiLoop {} evs).accum_text_parts)) = _
    rw [show (pyJoin (oaiLoop ({} : OAIAccum) evs).accum_text_parts) =
      pyJoin ({} : OAIAccum).accum_text_parts ++
        pyJoin (spec_received_fragments_oai evs) from oaiLoop_join evs {}]
    rw [show pyJoin ({} : OAIAccum).accum_text_parts = "" from rfl,
      String.empty_append]
  · show some (pyStrip (pyJoin (gemLoop {} gchunks).accum)) = _
    rw [gemLoop_accum]
    rfl

/-- C5 witness: the spec scenario — an OpenAI stream delivering the
fragments "Hello" and " world" followed by a terminal event yields the
text "Hello world". -/
theorem C5_witness :
    (OpenAIProvider.generate "sys" "user" demoOaiEnv).text =
      some "Hello world" := by
  have h := (C5_text_is_stripped_concat_of_fragments "sys" "user" [] []
    [oaiHello, oaiWorld, oaiCompleted] [] 1 2 1 2 1 10 1 2 rfl).2.2.1
  have h2 : some (pyStrip (pyJoin (spec_received_fragments_oai
      [oaiHello, oaiWorld, oaiCompleted]))) = some "Hello world" := by decide
  exact h.trans h2

/-- C6: the token counters captured by the Anthropic and Grok streaming
loops are those of the first event that reports any usage counter;
later usage events never overwrite them.  (The OpenAI and Gemini
adapters never read usage from the stream, so the claim only concerns
these two; stated on the fields computed at their return sites.) -/
theorem C6_first_usage_event_wins (system_prompt user_prompt : String)
    (aenv kenv : ChatEnv) (c c2 : ChatChunk)
    (hfind : aenv.run.consumed.find? bearsUsage = some c)
    (hfind2 : kenv.run.consumed.find? bearsUsage = some c2) :
    ((AnthropicProvider.generate_fields system_prompt user_prompt
          aenv).input_tokens = (usageOf c).prompt_tokens ∧
      (AnthropicProvider.generate_fields system_prompt user_prompt
          aenv).output_tokens = (usageOf c).completion_tokens) ∧
    ((GrokProvider.generate_fields system_prompt user_prompt
          kenv).input_tokens = (usageOf c2).prompt_tokens ∧
      (GrokProvider.generate_fields system_prompt user_prompt
          kenv).output_tokens = (usageOf c2).completion_tokens) := by
  constructor
  · have h := chatConsume_usage_first_wins aenv.run.consumed {} c rfl rfl hfind
    exact ⟨h.1, h.2⟩
  · have h := chatConsume_usage_first_wins kenv.run.consumed {} c2 rfl rfl hfind2
    exact ⟨h.1, h.2⟩

/-- C6 witness: on the demo stream, whose third chunk reports
(3, 5) and whose fourth reports (7, 9), the captured counters are
those of the third chunk. -/
theorem C6_witness :
    (AnthropicProvider.generate_fields "sys" "user"
        demoChatEnv).input_tokens = some 3 ∧
      (AnthropicProvider.generate_fields "sys" "user"
        demoChatEnv).output_tokens = some 5 := by
  have h := (C6_first_usage_event_wins "sys" "user" demoChatEnv demoChatEnv
    chunkUsage1 chunkUsage1 (by decide) (by decide)).1
  exact ⟨h.1.trans (by decide), h.2.trans (by decide)⟩

/-- C3 counterexample: an OpenAI stream that delivers the fragment
"Hello" and then an in-stream `response.error` event produces a
response with `error_category = "api_error"` and `text = "Hello"` —
both fields non-None, refuting the claim that a set error category
forces an absent text. -/
theorem C3_counterexample_stream_error_keeps_text :
    (OpenAIProvider.generate "sys" "user" demoOaiErrEnv).error_category =
        some "api_error" ∧
      (OpenAIProvider.generate "sys" "user" demoOaiErrEnv).text =
        some "Hello" ∧
      ¬((OpenAIProvider.generate "sys" "user" demoOaiErrEnv).error_category
          ≠ none →
        (OpenAIProvider.generate "sys" "user" demoOaiErrEnv).text = none) := by
  refine ⟨by decide, by decide, ?_⟩
  intro h
  have := h (by decide)
  revert this
  decide

theorem chat_fields_error_category_eq (sp up : String) (env : ChatEnv) :
    (AnthropicProvider.generate_fields sp up env).error_category =
      (match env.run.exc with
        | none => none
        | some e => some e.className) := rfl

theorem chat_fields_text_none_of_exc (sp up : String) (env : ChatEnv)
    (e : PyExc) (hexc : env.run.exc = some e) :
    (AnthropicProvider.generate_fields sp up env).text = none := by
  show (match env.run.exc with
    | none => some (pyStrip (pyJoin
        (chatConsume {} env.run.consumed).accum_text_parts))
    | some _ => none) = none
  rw [hexc]

theorem grok_fields_error_category_eq (sp up : String) (env : ChatEnv) :
    (GrokProvider.generate_fields sp up env).error_category =
      (match env.run.exc with
        | none => none
        | some e => some e.className) := rfl

theorem grok_fields_text_none_of_exc (sp up : String) (env : ChatEnv)
    (e : PyExc) (hexc : env.run.exc = some e) :
    (GrokProvider.generate_fields sp up env).text = none := by
  show (match env.run.exc with
    | none => some (pyStrip (pyJoin
        (chatConsume {} env.run.consumed).accum_text_parts))
    | some _ => none) = none
  rw [hexc]

/-- C3 amended: a non-None `error_category` implies an absent `text` on
every exception path of every adapter; the single exception is the
OpenAI in-stream `response.error` event path, whose category is the
constant "api_error" and which keeps the fragments received before the
error. -/
theorem C3_amended_error_implies_no_text
    (system_prompt user_prompt : String)
    (aenv kenv : ChatEnv) (oenv : OAIEnv) (menv : GemEnv) :
    ((AnthropicProvider.generate_fields system_prompt user_prompt
          aenv).error_category ≠ none →
      (AnthropicProvider.generate_fields system_prompt user_prompt
          aenv).text = none) ∧
    ((GrokProvider.generate_fields system_prompt user_prompt
          kenv).error_category ≠ none →
      (GrokProvider.generate_fields system_prompt user_prompt
          kenv).text = none) ∧
    (∀ cat, (OpenAIProvider.generate system_prompt user_prompt
          oenv).error_category = some cat →
      cat ≠ "api_error" →
      (OpenAIProvider.generate system_prompt user_prompt oenv).text = none) ∧
    ((GeminiProvider.generate system_prompt user_prompt
          menv).error_category ≠ none →
      (GeminiProvider.generate system_prompt user_prompt menv).text =
        none) := by
  refine ⟨?_, ?_, ?_, ?_⟩
  · intro h
    cases hexc : aenv.run.exc with
    | none =>
      exfalso
      apply h
      rw [chat_fields_error_category_eq, hexc]
    | some e => exact chat_fields_text_none_of_exc _ _ _ e hexc
  · intro h
    cases hexc : kenv.run.exc with
    | none =>
      exfalso
      apply h
      rw [grok_fields_error_category_eq, hexc]
    | some e => exact grok_fields_text_none_of_exc _ _ _ e hexc
  · intro cat hcat hne
    cases henv : oenv.run with
    | ok evs =>
      exfalso
      have hec : (OpenAIProvider.generate system_prompt user_prompt
          oenv).error_category = (oaiLoop {} evs).error_category := by
        simp [OpenAIProvider.generate, henv]
      rw [hec] at hcat
      rcases oaiLoop_error_category evs {} with hcase | hcase
      · rw [hcase, show ({} : OAIAccum).error_category = none from rfl] at hcat
        exact Option.noConfusion hcat
      · rw [hcase] at hcat
        injection hcat with hcc
        exact hne hcc.symm
    | fail evs e => simp [OpenAIProvider.generate, henv]
  · intro h
    cases henv : menv.run with
    | ok gchunks =>
      exfalso
      apply h
      simp [GeminiProvider.generate, henv]
    | fail gchunks e => simp [GeminiProvider.generate, henv]

/-- C3 witness: the amended theorem applied to a Gemini stream that
raises a timeout exception shows the returned text is absent. -/
theorem C3_witness :
    (GeminiProvider.generate "sys" "user" demoFailGemEnv).text = none := by
  have h := (C3_amended_error_implies_no_text "sys" "user" emptyChatEnv
    emptyChatEnv demoOaiEnv demoFailGemEnv).2.2.2
  exact h (by decide)

theorem openai_output_chars_eq (sp up : String) (env : OAIEnv) :
    (OpenAIProvider.generate sp up env).output_chars =
      pyLenIfTruthy (OpenAIProvider.generate sp up env).text := by
  cases henv : env.run with
  | ok evs => simp [OpenAIProvider.generate, henv]
  | fail evs e => simp [OpenAIProvider.generate, henv]

theorem gemini_output_chars_eq (sp up : String) (env : GemEnv) :
    (GeminiProvider.generate sp up env).output_chars =
      pyLenIfTruthy (GeminiProvider.generate sp up env).text := by
  cases henv : env.run with
  | ok gchunks => simp [GeminiProvider.generate, henv]
  | fail gchunks e => simp [GeminiProvider.generate, henv]

theorem pyLenIfTruthy_cases (t : Option String) :
    (∀ s, t = some s → s ≠ "" → pyLenIfTruthy t = some (pyLen s)) ∧
      (t = some "" → pyLenIfTruthy t = none) ∧
      (t = none → pyLenIfTruthy t = none) := by
  cases t with
  | none =>
    refine ⟨?_, ?_, ?_⟩
    · intro s hs; exact absurd hs (by simp)
    · intro hs; exact absurd hs (by simp)
    · intro _; rfl
  | some v =>
    refine ⟨?_, ?_, ?_⟩
    · intro s hs hne
      injection hs with hv
      subst hv
      simp [pyLenIfTruthy, hne]
    · intro hs
      injection hs with hv
      subst hv
      rfl
    · intro hs; exact Option.noConfusion hs

/-- C7 amended: `output_chars` is the Python-truthiness fallback
`len(text) if text else None`: it equals `len(text)` whenever `text` is
present and non-empty (regardless of token availability), and it is
`None` — not 0 — whenever `text` is the empty string or absent.
Stated for all four adapters (fields at the return site for
Anthropic/Grok). -/
theorem C7_amended_output_chars (system_prompt user_prompt : String)
    (aenv kenv : ChatEnv) (oenv : OAIEnv) (menv : GemEnv) :
    ((∀ s, (AnthropicProvider.generate_fields system_prompt user_prompt
          aenv).text = some s → s ≠ "" →
        (AnthropicProvider.generate_fields system_prompt user_prompt
          aenv).output_chars = some (pyLen s)) ∧
      ((AnthropicProvider.generate_fields system_prompt user_prompt
          aenv).text = some "" →
        (AnthropicProvider.generate_fields system_prompt user_prompt
          aenv).output_chars = none) ∧
      ((AnthropicProvider.generate_fields system_prompt user_prompt
          aenv).text = none →
        (AnthropicProvider.generate_fields system_prompt user_prompt
          aenv).output_chars = none)) ∧
    ((∀ s, (GrokProvider.generate_fields system_prompt user_prompt
          kenv).text = some s → s ≠ "" →
        (GrokProvider.generate_fields system_prompt user_prompt
          kenv).output_chars = some (pyLen s)) ∧
      ((GrokProvider.generate_fields system_prompt user_prompt
          kenv).text = some "" →
        (GrokProvider.generate_fields system_prompt user_prompt
          kenv).output_chars = none) ∧
      ((GrokProvider.generate_fields system_prompt user_prompt
          kenv).text = none →
        (GrokProvider.generate_fields system_prompt user_prompt
          kenv).output_chars = none)) ∧
    ((∀ s, (OpenAIProvider.generate system_prompt user_prompt
          oenv).text = some s → s ≠ "" →
        (OpenAIProvider.generate system_prompt user_prompt
          oenv).output_chars = some (pyLen s)) ∧
      ((OpenAIProvider.generate system_prompt user_prompt
          oenv).text = some "" →
        (OpenAIProvider.generate system_prompt user_prompt
          oenv).output_chars = none) ∧
      ((OpenAIProvider.generate system_prompt user_prompt
          oenv).text = none →
        (OpenAIProvider.generate system_prompt user_prompt
          oenv).output_chars = none)) ∧
    ((∀ s, (GeminiProvider.generate system_prompt user_prompt
          menv).text = some s → s ≠ "" →
        (GeminiProvider.generate system_prompt user_prompt
          menv).output_chars = some (pyLen s)) ∧
      ((GeminiProvider.generate system_prompt user_prompt
          menv).text = some "" →
        (GeminiProvider.generate system_prompt user_prompt
          menv).output_chars = none) ∧
      ((GeminiProvider.generate system_prompt user_prompt
          menv).text = none →
        (GeminiProvider.generate system_prompt user_prompt
          menv).output_chars = none)) := by
  have hA : (AnthropicProvider.generate_fields system_prompt user_prompt
      aenv).output_chars = pyLenIfTruthy (AnthropicProvider.generate_fields
      system_prompt user_prompt aenv).text := rfl
  have hK : (GrokProvider.generate_fields system_prompt user_prompt
      kenv).output_chars = pyLenIfTruthy (GrokProvider.generate_fields
      system_prompt user_prompt kenv).text := rfl
  have hO := openai_output_chars_eq system_prompt user_prompt oenv
  have hM := gemini_output_chars_eq system_prompt user_prompt menv
  refine ⟨⟨?_, ?_, ?_⟩, ⟨?_, ?_, ?_⟩, ⟨?_, ?_, ?_⟩, ⟨?_, ?_, ?_⟩⟩ <;>
    first
    | (intro s hs hne
       rw [hA, hs]
       exact (pyLenIfTruthy_cases (some s)).1 s rfl hne)
    | (intro s hs hne
       rw [hK, hs]
       exact (pyLenIfTruthy_cases (some s)).1 s rfl hne)
    | (intro s hs hne
       rw [hO, hs]
       exact (pyLenIfTruthy_cases (some s)).1 s rfl hne)
    | (intro s hs hne
       rw [hM, hs]
       exact (pyLenIfTruthy_cases (some s)).1 s rfl hne)
    | (intro hs
       first
       | rw [hA, hs]
       | rw [hK, hs]
       | rw [hO, hs]
       | rw [hM, hs]
       rfl)

/-- C7 counterexample: a Gemini stream with no chunks yields
`text = ""` (present) while no output token count exists, yet
`output_chars` is `None`, not 0 — refuting the claim for empty text. -/
theorem C7_counterexample_empty_text_gives_none :
    (GeminiProvider.generate "sys" "user" emptyGemEnv).text = some "" ∧
      (GeminiProvider.generate "sys" "user" emptyGemEnv).output_tokens =
        none ∧
      (GeminiProvider.generate "sys" "user" emptyGemEnv).output_chars ≠
        some 0 := by
  refine ⟨by decide, by decide, ?_⟩
  intro h
  revert h
  decide

/-- C7 witness: the amended theorem applied to the successful demo
Gemini stream gives `output_chars = 11` for the text "Hello world". -/
theorem C7_witness :
    (GeminiProvider.generate "sys" "user" demoGemEnv).output_chars =
      some 11 := by
  have h := ((C7_amended_output_chars "sys" "user" emptyChatEnv emptyChatEnv
    demoOaiEnv demoGemEnv).2.2.2.1) "Hello world" (by decide) (by decide)
  exact h.trans (by decide)

/-- C9: on every exception path of every adapter, the recorded error
category is exactly the Python class name of the caught exception
(`type(e).__name__`); stated for streams failing after an arbitrary
consumed prefix. -/
theorem C9_error_category_is_exception_class_name
    (system_prompt user_prompt : String)
    (chunks kchunks : List ChatChunk) (evs : List OAIEvent)
    (gchunks : List GemChunk) (e1 e2 e3 e4 : PyExc)
    (s1 t1 s2 t2 s3 t3 s4 t4 : ℚ) :
    (AnthropicProvider.generate_fields system_prompt user_prompt
        ⟨StreamRun.fail chunks e1, s1, t1⟩).error_category =
      some e1.className ∧
    (GrokProvider.generate_fields system_prompt user_prompt
        ⟨StreamRun.fail kchunks e2, s2, t2⟩).error_category =
      some e2.className ∧
    (OpenAIProvider.generate system_prompt user_prompt
        ⟨StreamRun.fail evs e3, s3, t3⟩).error_category =
      some e3.className ∧
    (GeminiProvider.generate system_prompt user_prompt
        ⟨StreamRun.fail gchunks e4, s4, t4⟩).error_category =
      some e4.className :=
  ⟨rfl, rfl, rfl, rfl⟩

/-- C10: whenever stream consumption completes without an exception,
the recorded HTTP status is the constant 200 — for every event list,
including OpenAI streams whose in-stream error event set an error
category. -/
theorem C10_http_status_200_on_clean_stream
    (system_prompt user_prompt : String)
    (chunks kchunks : List ChatChunk) (evs : List OAIEvent)
    (gchunks : List GemChunk) (s1 t1 s2 t2 s3 t3 s4 t4 : ℚ) :
    (AnthropicProvider.generate_fields system_prompt user_prompt
        ⟨StreamRun.ok chunks, s1, t1⟩).http_status = some 200 ∧
    (GrokProvider.generate_fields system_prompt user_prompt
        ⟨StreamRun.ok kchunks, s2, t2⟩).http_status = some 200 ∧
    (OpenAIProvider.generate system_prompt user_prompt
        ⟨StreamRun.ok evs, s3, t3⟩).http_status = some 200 ∧
    (GeminiProvider.generate system_prompt user_prompt
        ⟨StreamRun.ok gchunks, s4, t4⟩).http_status = some 200 :=
  ⟨rfl, rfl, rfl, rfl⟩

/-- C1 (code bug): `AnthropicProvider.generate` and
`GrokProvider.generate` never return a `ProviderResponse` at all: on
every input — success or failure — the final
`ProviderResponse(..., error_message=..., ...)` constructor call passes
the keyword `error_message`, which the dataclass in base.py does not
define, so the call raises `TypeError` to the caller instead of
returning the contract.  (The OpenAI and Gemini adapters do satisfy
the claim: their embeddings are total functions into
`ProviderResponse`.) -/
theorem C1_async_adapters_always_raise_typeerror
    (system_prompt user_prompt : String) (aenv kenv : ChatEnv) :
    AnthropicProvider.generate system_prompt user_prompt aenv =
      Except.error ⟨"TypeError",
        "ProviderResponse.__init__() got an unexpected keyword argument error_message",
        none⟩ ∧
    GrokProvider.generate system_prompt user_prompt kenv =
      Except.error ⟨"TypeError",
        "ProviderResponse.__init__() got an unexpected keyword argument error_message",
        none⟩ :=
  ⟨rfl, rfl⟩

/-- C2 (code bug): `run_task` over the static ten-model roster aborts
with an `AttributeError` at the first Anthropic spec — `run_task` calls
the `async def` adapters without `await`, receives a coroutine object,
and crashes reading `.text` from it — so it produces no rows at all
instead of one row per ModelSpec, even when every stream would have
succeeded. -/
theorem C2_run_task_aborts_on_first_async_adapter :
    run_task "prompt" "system" "img.png" "study-1" "slice-1.png"
        (fun _ => benignCallEnv) =
      Except.error
        ⟨"AttributeError", "coroutine object has no attribute text",
          none⟩ := rfl

/-- C8 amended: Anthropic and Grok inline the image as a data URL of
the base64-encoded raw bytes tagged with the MIME type derived from
the lowercased file extension (`.png/.jpg/.jpeg/.webp`, default
`image/png`); OpenAI inlines the bare base64 data with no MIME tag
anywhere in its image block; Gemini tags the MIME type from the same
extension map but inlines the raw bytes without base64 encoding. -/
theorem C8_amended_image_encoding (p user_prompt : String)
    (bytes : List Nat) (hp : p ≠ "") :
    AnthropicProvider.encode_image_data_url p bytes =
      "data:" ++ mimeForExt ((pySuffix p).toLower) ++ ";base64," ++
        base64Encode bytes ∧
    GrokProvider.encode_image_data_url p bytes =
      "data:" ++ mimeForExt ((pySuffix p).toLower) ++ ";base64," ++
        base64Encode bytes ∧
    AnthropicProvider.build_content user_prompt (some p) bytes =
      [ChatContentPart.text user_prompt,
       ChatContentPart.image_url
         (AnthropicProvider.encode_image_data_url p bytes)] ∧
    GrokProvider.build_content user_prompt (some p) bytes =
      [ChatContentPart.text user_prompt,
       ChatContentPart.image_url
         (GrokProvider.encode_image_data_url p bytes)] ∧
    OpenAIProvider.build_content user_prompt (some p) bytes =
      [OAIContentPart.text user_prompt,
       OAIContentPart.input_image (base64Encode bytes)] ∧
    GeminiProvider.encode_image p bytes =
      { mime_type := mimeForExt ((pySuffix p).toLower), data := bytes } := by
  refine ⟨rfl, rfl, ?_, ?_, ?_, rfl⟩
  · simp [AnthropicProvider.build_content, hp]
  · simp [GrokProvider.build_content, hp]
  · simp [OpenAIProvider.build_content, OpenAIProvider.encode_image, hp]

/-- C8 counterexample: for a `.webp` file with bytes `[104, 101, 108]`
("hel"), the Gemini adapter inlines the raw bytes themselves, not
their base64 encoding "aGVs" — so the image is not inlined as "the
file's raw bytes base64-encoded" by every adapter. -/
theorem C8_counterexample_gemini_inlines_raw_bytes :
    (GeminiProvider.encode_image "scan.webp" [104, 101, 108]).data =
        [104, 101, 108] ∧
      base64Encode [104, 101, 108] = "aGVs" ∧
      (GeminiProvider.encode_image "scan.webp" [104, 101, 108]).data ≠
        strBytes (base64Encode [104, 101, 108]) := by
  refine ⟨rfl, by decide, ?_⟩
  decide

/-- C8 witness: at the concrete path "scan.webp" and bytes
`[104, 101, 108]`, the OpenAI content block carries only the base64
payload "aGVs". -/
theorem C8_witness :
    OpenAIProvider.build_content "Describe" (some "scan.webp")
        [104, 101, 108] =
      [OAIContentPart.text "Describe", OAIContentPart.input_image "aGVs"] := by
  have h := (C8_amended_image_encoding "scan.webp" "Describe"
    [104, 101, 108] (by decide)).2.2.2.2.1
  exact h.trans (by decide)
